import Mathlib

/-!
# Verification of the SuraCreator bot core (src/bot.py)

A shallow embedding of the request-state / artifact-cache core of
`src/bot.py`: the per-user pending-URL store (`context.user_data["video_url"]`),
the Redis-backed artifact cache (`redis_client.get` / `redis_client.setex`),
the membership gate (`get_chat_member` status check), and the three
user-event handlers `handle_url`, `joined_channel` and `download_file`.

External collaborators (Telegram transport, the membership oracle, Redis,
the yt-dlp extraction engine, the filesystem) are modelled at their
interface boundary: the oracle as an answer value, Redis as a key-value
map with absolute expiry (SETEX stores value with expiry `storedAt + ttl`,
GET returns nothing once the expiry is reached), the engine as a function
from `(url, format)` to a path or a diagnostic string, and the filesystem
as a path-existence predicate.  Each handler is a pure function from the
bot state and the environment's answers to the new state together with a
trace of the externally visible actions it performs, in program order.
-/

namespace SuraCreator

/-- An output format, as selected via the callback buttons.  The handler
registration `CallbackQueryHandler(download_file, pattern="^(video|mp3)$")`
(bot.py line 159) restricts `query.data` to exactly these two values. -/
inductive Fmt where
  | video
  | mp3
deriving DecidableEq, Repr

/-- The callback-data string carried by a format button (`query.data`). -/
def Fmt.str : Fmt → String
  | .video => "video"
  | .mp3 => "mp3"

/-- A Telegram chat-member status, as returned by `get_chat_member`. -/
inductive ChatStatus where
  | member
  | administrator
  | creator
  | restricted
  | leftChat
  | kicked
deriving DecidableEq, Repr

/-- The status string of the Telegram API answer (`chat_member.status`). -/
def ChatStatus.str : ChatStatus → String
  | .member => "member"
  | .administrator => "administrator"
  | .creator => "creator"
  | .restricted => "restricted"
  | .leftChat => "left"
  | .kicked => "kicked"

/-- Outcome of one `get_chat_member` call: either a status answer, or the
oracle is unreachable (the call raises; bot.py catches `RetryAfter` /
`NetworkError` in `handle_url` and any `Exception` in `joined_channel`). -/
inductive OracleAnswer where
  | ok (s : ChatStatus)
  | unreachable
deriving DecidableEq, Repr

/-- The membership decision of bot.py lines 41 and 81:
`chat_member.status not in ["member", "administrator", "creator"]` denies,
so the gate allows exactly when the status string is in that list. -/
def memberAllowed (s : ChatStatus) : Bool :=
  ["member", "administrator", "creator"].contains s.str

/-- One stored Redis value together with its absolute expiry time. -/
structure RedisEntry where
  value : String
  expiresAt : Nat
deriving DecidableEq, Repr

/-- The Redis key-value store, keys to live entries. -/
def RedisState : Type := String → Option RedisEntry

/-- Redis `GET` at time `now`: an entry is returned only while `now` is
strictly before its expiry; an expired or absent key reads as nothing. -/
def redisGet (c : RedisState) (now : Nat) (k : String) : Option String :=
  match c k with
  | some e => if now < e.expiresAt then some e.value else none
  | none => none

/-- Redis `SETEX key ttl value` at time `now`: unconditional overwrite of
the key with expiry `now + ttl` (bot.py line 125). -/
def redisSetex (c : RedisState) (now : Nat) (k : String) (ttl : Nat) (v : String) :
    RedisState :=
  fun q => if q = k then some ⟨v, now + ttl⟩ else c q

/-- Python truthiness of `redis_client.get`: `None` and the empty value are
falsy (`if cached_file:` on bot.py line 106). -/
def truthy : Option String → Option String
  | some v => if v = "" then none else some v
  | none => none

/-- The bot state a single user's handlers touch: the user's pending URL
(`context.user_data["video_url"]`) and the shared Redis cache. -/
structure BotState where
  videoUrl : Option String
  cache : RedisState

/-- One externally visible action of a handler, in program order:
a membership-oracle call, a logger call, a user-facing message
(`reply_text` / `edit_message_text` / an answer with text), a cache read,
a cache write, an extraction-engine invocation, or a file delivery. -/
inductive Action where
  | oracleCall
  | log
  | userMsg (text : String)
  | cacheGet (key : String)
  | cacheSet (key : String) (ttl : Nat) (value : String)
  | engineCall (url : String) (fmt : Fmt)
  | sendAudio (path : String)
  | sendVideo (path : String)
deriving DecidableEq, Repr

/-- The extraction engine (`yt_dlp`): given a URL and format it yields the
produced artifact's path, or fails with a diagnostic string. -/
def Engine : Type := String → Fmt → Except String String

/-- The gated channel name (`CHANNEL_USERNAME`, default value). -/
def CHANNEL_USERNAME : String := "ytdownloaderbot1"

/-- bot.py line 62 / line 98. -/
def noUrlMsg : String := "No video URL found. Please send it again."

/-- bot.py line 101. -/
def waitMsg : String := "Wait a sec... Preparing your file!"

/-- bot.py line 107. -/
def cacheHitMsg : String := "File ready from cache. Sending now!"

/-- bot.py line 137. -/
def fileGoneMsg : String := "Error: File not found on server."

/-- bot.py line 146. -/
def sentMsg : String := "Download complete! File sent."

/-- bot.py line 44. -/
def joinPromptMsg : String :=
  "To continue, please join our channel: @" ++ CHANNEL_USERNAME

/-- `show_download_options` (bot.py lines 59-71): re-reads the stored URL;
if it is missing (or empty, by Python truthiness) it asks for the URL
again, otherwise it presents the Video / MP3 choice. -/
def show_download_options (st : BotState) : List Action :=
  match st.videoUrl with
  | some u =>
      if u = "" then [.userMsg noUrlMsg]
      else [.userMsg ("Requested URL: " ++ u ++ "\nChoose options below:")]
  | none => [.userMsg noUrlMsg]

/-- `handle_url` (bot.py lines 31-56): strip and store the URL
unconditionally, then consult the membership oracle; on an allowed status
show the download options, on any other status send the join prompt, and
if the oracle call raises, only log (no user-facing message is sent). -/
def handle_url (st : BotState) (text : String) (ora : OracleAnswer) :
    BotState × List Action :=
  let st1 : BotState := { st with videoUrl := some text.trim }
  match ora with
  | .ok s =>
      if memberAllowed s then
        (st1, .oracleCall :: show_download_options st1)
      else
        (st1, [.oracleCall, .userMsg joinPromptMsg])
  | .unreachable => (st1, [.oracleCall, .log])

/-- `joined_channel` (bot.py lines 74-88): re-check membership; on an
allowed status thank the user and show the download options, otherwise
alert "Please join the channel first."; if the check raises, only log. -/
def joined_channel (st : BotState) (ora : OracleAnswer) :
    BotState × List Action :=
  match ora with
  | .ok s =>
      if memberAllowed s then
        (st, .oracleCall :: .userMsg "Thank you for joining!" ::
          show_download_options st)
      else
        (st, [.oracleCall, .userMsg "Please join the channel first."])
  | .unreachable => (st, [.oracleCall, .log])

/-- The cache key `file_key = f"{url}_{choice}"` (bot.py line 104). -/
def deriveKey (url : String) (choice : Fmt) : String :=
  url ++ ("_" ++ choice.str)

/-- `send_file_from_cache` (bot.py lines 134-149): if the artifact path no
longer exists on disk, tell the user "Error: File not found on server."
and stop; otherwise send the file as audio for "mp3" and as video
otherwise, then confirm. -/
def send_file_from_cache (choice : Fmt) (fs : String → Bool) (path : String) :
    List Action :=
  if fs path then
    (if choice = .mp3 then [Action.sendAudio path] else [Action.sendVideo path])
      ++ [.userMsg sentMsg]
  else
    [.userMsg fileGoneMsg]

/-- `download_file` (bot.py lines 91-131), the coordinator: read the
stored URL (missing or empty: ask for it again and stop); announce the
wait; derive the cache key and read Redis; on a (truthy) cached path send
it from cache without touching the engine; on a miss invoke the engine
once, on success `SETEX` the path with a 24-hour TTL and send the file,
on failure log and surface `"Error: " ++ diagnostic` to the user. -/
def download_file (st : BotState) (choice : Fmt) (engine : Engine)
    (fs : String → Bool) (now : Nat) : BotState × List Action :=
  match st.videoUrl with
  | none => (st, [.userMsg noUrlMsg])
  | some url =>
      if url = "" then (st, [.userMsg noUrlMsg])
      else
        let key := deriveKey url choice
        match truthy (redisGet st.cache now key) with
        | some cached =>
            (st, .userMsg waitMsg :: .cacheGet key :: .userMsg cacheHitMsg ::
              send_file_from_cache choice fs cached)
        | none =>
            match engine url choice with
            | .ok path =>
                ({ st with cache := redisSetex st.cache now key (3600 * 24) path },
                  .userMsg waitMsg :: .cacheGet key :: .engineCall url choice ::
                    .cacheSet key (3600 * 24) path ::
                    send_file_from_cache choice fs path)
            | .error e =>
                (st, [.userMsg waitMsg, .cacheGet key, .engineCall url choice,
                  .log, .userMsg ("Error: " ++ e)])

/-- The engine invocations recorded in a trace. -/
def engineCalls (tr : List Action) : List (String × Fmt) :=
  tr.filterMap fun a => match a with
    | .engineCall u f => some (u, f)
    | _ => none

/-- How many membership-oracle calls a trace contains. -/
def oracleCalls (tr : List Action) : Nat :=
  tr.countP fun a => match a with
    | .oracleCall => true
    | _ => false

/-- The user-facing message texts of a trace, in order. -/
def userMsgs (tr : List Action) : List String :=
  tr.filterMap fun a => match a with
    | .userMsg t => some t
    | _ => none

/-- The cache writes of a trace, as (key, ttl, value) triples. -/
def cacheStores (tr : List Action) : List (String × Nat × String) :=
  tr.filterMap fun a => match a with
    | .cacheSet k t v => some (k, t, v)
    | _ => none

/-- The cache-lookup keys of a trace. -/
def cacheLookups (tr : List Action) : List String :=
  tr.filterMap fun a => match a with
    | .cacheGet k => some k
    | _ => none

/-- The artifact paths delivered to the user (audio or video sends). -/
def deliveredFiles (tr : List Action) : List String :=
  tr.filterMap fun a => match a with
    | .sendAudio p => some p
    | .sendVideo p => some p
    | _ => none

/-- Whether a trace contains a logger call. -/
def logsFailure (tr : List Action) : Bool :=
  tr.contains .log

/-! ## General lemmas about the embedded operations -/

/-- The character data underlying a derived key: the URL's characters, an
underscore, then the format string's characters. -/
theorem deriveKey_data (u : String) (f : Fmt) :
    (deriveKey u f).data = u.data ++ ('_' :: (Fmt.str f).data) := rfl

/-- Reading back a `SETEX`-written key before its expiry returns the
written value. -/
theorem redisGet_setex_live (c : RedisState) (now : Nat) (k : String)
    (ttl : Nat) (v : String) (t : Nat) (h : t < now + ttl) :
    redisGet (redisSetex c now k ttl v) t k = some v := by
  simp [redisGet, redisSetex, h]

/-- Reading back a `SETEX`-written key at or after its expiry misses. -/
theorem redisGet_setex_expired (c : RedisState) (now : Nat) (k : String)
    (ttl : Nat) (v : String) (t : Nat) (h : now + ttl ≤ t) :
    redisGet (redisSetex c now k ttl v) t k = none := by
  simp [redisGet, redisSetex, Nat.not_lt.mpr h]

/-- `download_file` with no stored URL: one remedy message, nothing else,
state unchanged. -/
theorem download_file_none_eq (st : BotState) (choice : Fmt) (engine : Engine)
    (fs : String → Bool) (now : Nat) (hu : st.videoUrl = none) :
    download_file st choice engine fs now = (st, [.userMsg noUrlMsg]) := by
  simp [download_file, hu]

/-- `download_file` on an unexpired, nonempty cached path: the cache-hit
trace, with the state unchanged and the engine never consulted. -/
theorem download_file_hit_eq (st : BotState) (choice : Fmt) (engine : Engine)
    (fs : String → Bool) (now : Nat) (url path : String)
    (hu : st.videoUrl = some url) (hne : url ≠ "")
    (hc : redisGet st.cache now (deriveKey url choice) = some path)
    (hp : path ≠ "") :
    download_file st choice engine fs now =
      (st, .userMsg waitMsg :: .cacheGet (deriveKey url choice) ::
        .userMsg cacheHitMsg :: send_file_from_cache choice fs path) := by
  simp [download_file, hu, hne, hc, truthy, hp]

/-- `download_file` on a cache miss with a successful extraction: the
engine runs once, the path is stored with a 24-hour TTL, the file is sent. -/
theorem download_file_miss_ok_eq (st : BotState) (choice : Fmt) (engine : Engine)
    (fs : String → Bool) (now : Nat) (url path : String)
    (hu : st.videoUrl = some url) (hne : url ≠ "")
    (hmiss : redisGet st.cache now (deriveKey url choice) = none)
    (heng : engine url choice = Except.ok path) :
    download_file st choice engine fs now =
      ({ st with cache :=
          redisSetex st.cache now (deriveKey url choice) (3600 * 24) path },
        .userMsg waitMsg :: .cacheGet (deriveKey url choice) ::
          .engineCall url choice ::
          .cacheSet (deriveKey url choice) (3600 * 24) path ::
          send_file_from_cache choice fs path) := by
  simp [download_file, hu, hne, hmiss, truthy, heng]

/-- `download_file` on a cache miss with a failing extraction: the error is
surfaced to the user and nothing is stored. -/
theorem download_file_miss_err_eq (st : BotState) (choice : Fmt) (engine : Engine)
    (fs : String → Bool) (now : Nat) (url e : String)
    (hu : st.videoUrl = some url) (hne : url ≠ "")
    (hmiss : redisGet st.cache now (deriveKey url choice) = none)
    (heng : engine url choice = Except.error e) :
    download_file st choice engine fs now =
      (st, [.userMsg waitMsg, .cacheGet (deriveKey url choice),
        .engineCall url choice, .log, .userMsg ("Error: " ++ e)]) := by
  simp [download_file, hu, hne, hmiss, truthy, heng]

/-- `send_file_from_cache` never invokes the extraction engine. -/
theorem engineCalls_send_file (choice : Fmt) (fs : String → Bool) (path : String) :
    engineCalls (send_file_from_cache choice fs path) = [] := by
  cases hfs : fs path <;> cases choice <;> simp [send_file_from_cache, engineCalls, hfs]

/-- `send_file_from_cache` never consults the membership oracle. -/
theorem oracleCalls_send_file (choice : Fmt) (fs : String → Bool) (path : String) :
    oracleCalls (send_file_from_cache choice fs path) = 0 := by
  cases hfs : fs path <;> cases choice <;> simp [send_file_from_cache, oracleCalls, hfs]

/-- `send_file_from_cache` performs no cache lookup. -/
theorem cacheLookups_send_file (choice : Fmt) (fs : String → Bool) (path : String) :
    cacheLookups (send_file_from_cache choice fs path) = [] := by
  cases hfs : fs path <;> cases choice <;> simp [send_file_from_cache, cacheLookups, hfs]

/-- When the artifact exists on disk, `send_file_from_cache` delivers it. -/
theorem deliveredFiles_send_file (choice : Fmt) (fs : String → Bool) (path : String)
    (hfs : fs path = true) :
    deliveredFiles (send_file_from_cache choice fs path) = [path] := by
  cases choice <;> simp [send_file_from_cache, deliveredFiles, hfs]

/-- `show_download_options` only sends messages: no oracle call. -/
theorem oracleCalls_show_options (st : BotState) :
    oracleCalls (show_download_options st) = 0 := by
  cases hu : st.videoUrl with
  | none => simp [show_download_options, hu, oracleCalls]
  | some u =>
      by_cases hue : u = "" <;> simp [show_download_options, hu, hue, oracleCalls]

/-- Counting oracle calls: an oracle call at the head adds one. -/
theorem oracleCalls_cons_oracle (tr : List Action) :
    oracleCalls (.oracleCall :: tr) = oracleCalls tr + 1 := by
  simp [oracleCalls]

/-- Counting oracle calls: a user message at the head adds none. -/
theorem oracleCalls_cons_userMsg (t : String) (tr : List Action) :
    oracleCalls (.userMsg t :: tr) = oracleCalls tr := by
  simp [oracleCalls]

/-! ## Claims -/

/-- C3: a format selection by an owner with no stored URL leaves the state
unchanged and produces exactly one user-visible message — the specific
remedy asking to send the URL again — with no cache lookup and no engine
invocation, so the request fails without ever reaching Resolving. -/
theorem C3_absent_url_fails_with_remedy (st : BotState) (choice : Fmt)
    (engine : Engine) (fs : String → Bool) (now : Nat)
    (hu : st.videoUrl = none) :
    download_file st choice engine fs now = (st, [.userMsg noUrlMsg])
    ∧ userMsgs (download_file st choice engine fs now).2
        = ["No video URL found. Please send it again."]
    ∧ engineCalls (download_file st choice engine fs now).2 = []
    ∧ cacheLookups (download_file st choice engine fs now).2 = [] := by
  have h := download_file_none_eq st choice engine fs now hu
  rw [h]
  exact ⟨rfl, rfl, rfl, rfl⟩

/-- Witness for C3 at a concrete empty state. -/
theorem C3_witness :
    download_file ⟨none, fun _ => none⟩ Fmt.mp3 (fun _ _ => Except.error "boom")
        (fun _ => false) 0
      = (⟨none, fun _ => none⟩, [.userMsg noUrlMsg]) :=
  (C3_absent_url_fails_with_remedy ⟨none, fun _ => none⟩ Fmt.mp3
    (fun _ _ => Except.error "boom") (fun _ => false) 0 rfl).1

/-- C4: the cache key `f"{url}_{choice}"` is a pure function of the URL
and the format, and over the supported format set {video, mp3} it is
injective: equal keys force equal URLs and equal formats.  (The two
format strings end in distinct characters, so even URLs containing
underscores cannot produce a collision.) -/
theorem C4_deriveKey_deterministic_injective (u1 u2 : String) (f1 f2 : Fmt)
    (h : deriveKey u1 f1 = deriveKey u2 f2) :
    u1 = u2 ∧ f1 = f2 := by
  have hd : u1.data ++ ('_' :: (Fmt.str f1).data)
      = u2.data ++ ('_' :: (Fmt.str f2).data) := by
    rw [← deriveKey_data, ← deriveKey_data, h]
  have hf : f1 = f2 := by
    cases f1 <;> cases f2 <;>
      first
        | rfl
        | (exfalso
           have hl := congrArg List.getLast? hd
           rw [List.getLast?_append_cons, List.getLast?_append_cons] at hl
           exact absurd hl (by decide))
  subst hf
  exact ⟨String.ext (List.append_cancel_right hd), rfl⟩

/-- Witness for C4 at a concrete key equation. -/
theorem C4_witness :
    "https://example.com/watch?v=abc" = "https://example.com/watch?v=abc"
      ∧ Fmt.mp3 = Fmt.mp3 :=
  C4_deriveKey_deterministic_injective "https://example.com/watch?v=abc"
    "https://example.com/watch?v=abc" Fmt.mp3 Fmt.mp3 rfl

/-- C7: the membership decision of bot.py lines 41 and 81 allows exactly
the statuses member, administrator and creator; every other oracle status
is denied (and so leads to the must-join branch). -/
theorem C7_gate_allowed_iff_member_admin_creator (s : ChatStatus) :
    memberAllowed s = true ↔
      s = ChatStatus.member ∨ s = ChatStatus.administrator
        ∨ s = ChatStatus.creator := by
  cases s <;> decide

/-- C8: on a cache miss with a failing extraction engine, the coordinator
leaves the state (and hence the cache) unchanged, invokes the engine
exactly once (no automatic retry), writes no cache entry, and surfaces
the engine's diagnostic verbatim to the user as `"Error: " ++ e`. -/
theorem C8_engine_failure_surfaced_no_store (st : BotState) (choice : Fmt)
    (engine : Engine) (fs : String → Bool) (now : Nat) (url e : String)
    (hu : st.videoUrl = some url) (hne : url ≠ "")
    (hmiss : redisGet st.cache now (deriveKey url choice) = none)
    (heng : engine url choice = Except.error e) :
    (download_file st choice engine fs now).1 = st
    ∧ engineCalls (download_file st choice engine fs now).2 = [(url, choice)]
    ∧ userMsgs (download_file st choice engine fs now).2
        = [waitMsg, "Error: " ++ e]
    ∧ cacheStores (download_file st choice engine fs now).2 = [] := by
  have h := download_file_miss_err_eq st choice engine fs now url e hu hne hmiss heng
  rw [h]
  exact ⟨rfl, rfl, rfl, rfl⟩

/-- Witness for C8 at a concrete failing engine. -/
theorem C8_witness :
    (download_file ⟨some "https://v", fun _ => none⟩ Fmt.video
        (fun _ _ => Except.error "HTTP Error 403") (fun _ => false) 0).1
      = ⟨some "https://v", fun _ => none⟩
    ∧ userMsgs (download_file ⟨some "https://v", fun _ => none⟩ Fmt.video
        (fun _ _ => Except.error "HTTP Error 403") (fun _ => false) 0).2
      = [waitMsg, "Error: " ++ "HTTP Error 403"] :=
  ⟨(C8_engine_failure_surfaced_no_store ⟨some "https://v", fun _ => none⟩ Fmt.video
      (fun _ _ => Except.error "HTTP Error 403") (fun _ => false) 0 "https://v"
      "HTTP Error 403" rfl (by decide) rfl rfl).1,
   (C8_engine_failure_surfaced_no_store ⟨some "https://v", fun _ => none⟩ Fmt.video
      (fun _ _ => Except.error "HTTP Error 403") (fun _ => false) 0 "https://v"
      "HTTP Error 403" rfl (by decide) rfl rfl).2.2.1⟩

/-- C9: `handle_url` overwrites the owner's stored URL unconditionally
(whatever was stored before and whatever the gate answers), while the
format-selection coordinator and the re-check handler never modify it —
in particular every terminal outcome of `download_file` (Done or any
Failed variant) leaves the RequestState entry unchanged. -/
theorem C9_request_state_overwrite_and_frame :
    (∀ (st : BotState) (text : String) (ora : OracleAnswer),
        (handle_url st text ora).1.videoUrl = some text.trim)
    ∧ (∀ (st : BotState) (choice : Fmt) (engine : Engine) (fs : String → Bool)
        (now : Nat),
        (download_file st choice engine fs now).1.videoUrl = st.videoUrl)
    ∧ (∀ (st : BotState) (ora : OracleAnswer),
        (joined_channel st ora).1.videoUrl = st.videoUrl) := by
  refine ⟨fun st text ora => ?_, fun st choice engine fs now => ?_,
    fun st ora => ?_⟩
  · cases ora with
    | ok s => by_cases hm : memberAllowed s <;> simp [handle_url, hm]
    | unreachable => rfl
  · cases hu : st.videoUrl with
    | none => simp [download_file, hu]
    | some url =>
        by_cases hne : url = ""
        · simp [download_file, hu, hne]
        · cases htr : truthy (redisGet st.cache now (deriveKey url choice)) with
          | some cached => simp [download_file, hu, hne, htr]
          | none =>
              cases heng : engine url choice with
              | ok path => simp [download_file, hu, hne, htr, heng]
              | error e => simp [download_file, hu, hne, htr, heng]
  · cases ora with
    | ok s => by_cases hm : memberAllowed s <;> simp [joined_channel, hm]
    | unreachable => rfl

/-- C1 counterexample: with an unexpired cache entry whose artifact is
gone from disk, the next format selection invokes the engine zero times,
stores nothing, and ends in the user-facing failure message
"Error: File not found on server." — refuting re-extraction, the fresh
store, and the absence of a user-facing failure all at once. -/
theorem C1_counterexample :
    engineCalls (download_file
        ⟨some "https://v", fun k =>
          if k = "https://v_mp3" then some ⟨"/tmp/a.mp3", 86400⟩ else none⟩
        Fmt.mp3 (fun _ _ => Except.ok "/tmp/b.mp3") (fun _ => false) 0).2 = []
    ∧ cacheStores (download_file
        ⟨some "https://v", fun k =>
          if k = "https://v_mp3" then some ⟨"/tmp/a.mp3", 86400⟩ else none⟩
        Fmt.mp3 (fun _ _ => Except.ok "/tmp/b.mp3") (fun _ => false) 0).2 = []
    ∧ userMsgs (download_file
        ⟨some "https://v", fun k =>
          if k = "https://v_mp3" then some ⟨"/tmp/a.mp3", 86400⟩ else none⟩
        Fmt.mp3 (fun _ _ => Except.ok "/tmp/b.mp3") (fun _ => false) 0).2
      = [waitMsg, cacheHitMsg, fileGoneMsg] :=
  ⟨rfl, rfl, rfl⟩

/-- C1 (amended): when a stored entry's artifact has been deleted from
backing storage before expiry, the next format selection for that
(url, format) takes the cache-hit path and sends the user the failure
message "Error: File not found on server."; it performs no re-extraction
and no fresh store, and leaves the state unchanged. -/
theorem C1_amended_missing_artifact_user_error (st : BotState) (choice : Fmt)
    (engine : Engine) (fs : String → Bool) (now : Nat) (url path : String)
    (hu : st.videoUrl = some url) (hne : url ≠ "")
    (hc : redisGet st.cache now (deriveKey url choice) = some path)
    (hp : path ≠ "") (hfs : fs path = false) :
    download_file st choice engine fs now =
      (st, [.userMsg waitMsg, .cacheGet (deriveKey url choice),
        .userMsg cacheHitMsg, .userMsg fileGoneMsg]) := by
  rw [download_file_hit_eq st choice engine fs now url path hu hne hc hp]
  simp [send_file_from_cache, hfs]

/-- Witness for the amended C1 at a concrete stale cache entry. -/
theorem C1_amended_witness :
    download_file ⟨some "u", fun _ => some ⟨"/tmp/p.mp3", 5⟩⟩ Fmt.mp3
        (fun _ _ => Except.ok "/tmp/q.mp3") (fun _ => false) 0 =
      (⟨some "u", fun _ => some ⟨"/tmp/p.mp3", 5⟩⟩,
        [.userMsg waitMsg, .cacheGet (deriveKey "u" Fmt.mp3),
          .userMsg cacheHitMsg, .userMsg fileGoneMsg]) :=
  C1_amended_missing_artifact_user_error
    ⟨some "u", fun _ => some ⟨"/tmp/p.mp3", 5⟩⟩ Fmt.mp3
    (fun _ _ => Except.ok "/tmp/q.mp3") (fun _ => false) 0 "u" "/tmp/p.mp3"
    rfl (by decide) rfl (by decide) rfl

/-- C2: after a successful first run (cache miss, engine success, file
delivered), an immediately repeated run for the same (owner, url, format)
— even against a different engine — performs no engine call, goes through
the cache-hit path, and delivers the same artifact location. -/
theorem C2_idempotent_second_run (st : BotState) (choice : Fmt)
    (eng1 eng2 : Engine) (fs : String → Bool) (now now2 : Nat)
    (url path : String)
    (hu : st.videoUrl = some url) (hne : url ≠ "")
    (hmiss : redisGet st.cache now (deriveKey url choice) = none)
    (heng : eng1 url choice = Except.ok path) (hp : path ≠ "")
    (hfs : fs path = true) (hlt : now2 < now + 3600 * 24) :
    engineCalls (download_file (download_file st choice eng1 fs now).1
        choice eng2 fs now2).2 = []
    ∧ cacheHitMsg ∈ userMsgs (download_file (download_file st choice eng1 fs now).1
        choice eng2 fs now2).2
    ∧ deliveredFiles (download_file (download_file st choice eng1 fs now).1
        choice eng2 fs now2).2
      = deliveredFiles (download_file st choice eng1 fs now).2 := by
  have h1 := download_file_miss_ok_eq st choice eng1 fs now url path hu hne hmiss heng
  rw [h1]
  have hc2 : redisGet
      (redisSetex st.cache now (deriveKey url choice) (3600 * 24) path) now2
      (deriveKey url choice) = some path :=
    redisGet_setex_live st.cache now (deriveKey url choice) (3600 * 24) path now2 hlt
  have h2 := download_file_hit_eq
    { st with cache := redisSetex st.cache now (deriveKey url choice) (3600 * 24) path }
    choice eng2 fs now2 url path hu hne hc2 hp
  rw [h2]
  refine ⟨?_, ?_, ?_⟩ <;>
    cases choice <;>
      simp [engineCalls, userMsgs, deliveredFiles, send_file_from_cache, hfs]

/-- Witness for C2 at a concrete first-miss-then-hit pair of runs. -/
theorem C2_witness :
    engineCalls (download_file (download_file ⟨some "u", fun _ => none⟩ Fmt.mp3
        (fun _ _ => Except.ok "/tmp/p.mp3") (fun _ => true) 0).1 Fmt.mp3
        (fun _ _ => Except.error "unreachable") (fun _ => true) 1).2 = []
    ∧ deliveredFiles (download_file (download_file ⟨some "u", fun _ => none⟩ Fmt.mp3
        (fun _ _ => Except.ok "/tmp/p.mp3") (fun _ => true) 0).1 Fmt.mp3
        (fun _ _ => Except.error "unreachable") (fun _ => true) 1).2
      = deliveredFiles (download_file ⟨some "u", fun _ => none⟩ Fmt.mp3
        (fun _ _ => Except.ok "/tmp/p.mp3") (fun _ => true) 0).2 :=
  ⟨(C2_idempotent_second_run ⟨some "u", fun _ => none⟩ Fmt.mp3
      (fun _ _ => Except.ok "/tmp/p.mp3") (fun _ _ => Except.error "unreachable")
      (fun _ => true) 0 1 "u" "/tmp/p.mp3" rfl (by decide) rfl rfl (by decide)
      rfl (by decide)).1,
   (C2_idempotent_second_run ⟨some "u", fun _ => none⟩ Fmt.mp3
      (fun _ _ => Except.ok "/tmp/p.mp3") (fun _ _ => Except.error "unreachable")
      (fun _ => true) 0 1 "u" "/tmp/p.mp3" rfl (by decide) rfl rfl (by decide)
      rfl (by decide)).2.2⟩

/-- C5: every store uses the fixed 24-hour TTL `3600 * 24` measured from
the store time: a key written at time `now` misses for every lookup at or
after `now + 24h` and still hits strictly before it; and a cache-hit
lookup leaves the whole state untouched, so no intervening lookup can
extend an entry's expiry (no sliding expiration). -/
theorem C5_ttl_fixed_24h_no_sliding :
    (∀ (c : RedisState) (now : Nat) (k v : String) (t : Nat),
        now + 3600 * 24 ≤ t →
        redisGet (redisSetex c now k (3600 * 24) v) t k = none)
    ∧ (∀ (c : RedisState) (now : Nat) (k v : String) (t : Nat),
        t < now + 3600 * 24 →
        redisGet (redisSetex c now k (3600 * 24) v) t k = some v)
    ∧ (∀ (st : BotState) (choice : Fmt) (engine : Engine) (fs : String → Bool)
        (now : Nat) (url path : String),
        st.videoUrl = some url → url ≠ "" →
        redisGet st.cache now (deriveKey url choice) = some path → path ≠ "" →
        (download_file st choice engine fs now).1 = st) := by
  refine ⟨fun c now k v t h => redisGet_setex_expired c now k (3600 * 24) v t h,
    fun c now k v t h => redisGet_setex_live c now k (3600 * 24) v t h,
    fun st choice engine fs now url path hu hne hc hp => ?_⟩
  rw [download_file_hit_eq st choice engine fs now url path hu hne hc hp]

/-- Witness for C5: concrete expiry at exactly 24 hours, a hit just
before it, and a hit-path lookup that leaves the state unchanged. -/
theorem C5_witness :
    redisGet (redisSetex (fun _ => none) 0 "k" (3600 * 24) "v") 86400 "k" = none
    ∧ redisGet (redisSetex (fun _ => none) 0 "k" (3600 * 24) "v") 86399 "k"
      = some "v"
    ∧ (download_file ⟨some "u", fun _ => some ⟨"/tmp/p.mp3", 10⟩⟩ Fmt.mp3
        (fun _ _ => Except.error "x") (fun _ => true) 0).1
      = ⟨some "u", fun _ => some ⟨"/tmp/p.mp3", 10⟩⟩ :=
  ⟨C5_ttl_fixed_24h_no_sliding.1 (fun _ => none) 0 "k" "v" 86400 (by decide),
   C5_ttl_fixed_24h_no_sliding.2.1 (fun _ => none) 0 "k" "v" 86399 (by decide),
   C5_ttl_fixed_24h_no_sliding.2.2 ⟨some "u", fun _ => some ⟨"/tmp/p.mp3", 10⟩⟩
     Fmt.mp3 (fun _ _ => Except.error "x") (fun _ => true) 0 "u" "/tmp/p.mp3"
     rfl (by decide) rfl (by decide)⟩

/-- C6 counterexample: when the oracle is unreachable, both callers send
the user no message at all (the trace holds no user-facing text), so the
claimed could-not-complete message distinct from MustJoin is never sent. -/
theorem C6_counterexample :
    userMsgs (handle_url ⟨none, fun _ => none⟩ "https://a"
        OracleAnswer.unreachable).2 = []
    ∧ userMsgs (joined_channel ⟨some "https://a", fun _ => none⟩
        OracleAnswer.unreachable).2 = [] :=
  ⟨rfl, rfl⟩

/-- C6 (amended): on an unreachable oracle neither caller proceeds as
Allowed — no format options and no other user-facing message are sent —
and each logs the failure; `handle_url` still stores the URL first. -/
theorem C6_gate_unavailable_denies_and_logs_without_message :
    (∀ (st : BotState) (text : String),
        handle_url st text OracleAnswer.unreachable
          = ({ st with videoUrl := some text.trim }, [.oracleCall, .log]))
    ∧ (∀ st : BotState,
        joined_channel st OracleAnswer.unreachable = (st, [.oracleCall, .log])) :=
  ⟨fun _ _ => rfl, fun _ => rfl⟩

/-- C10: the format-selection coordinator makes no membership-oracle call
on any input (and, whenever a nonempty URL is stored, goes straight to
the cache lookup for the derived key); the oracle is consulted exactly
once per URL receipt and once per "I've Joined" press. -/
theorem C10_format_selection_skips_gate :
    (∀ (st : BotState) (choice : Fmt) (engine : Engine) (fs : String → Bool)
        (now : Nat),
        oracleCalls (download_file st choice engine fs now).2 = 0)
    ∧ (∀ (st : BotState) (choice : Fmt) (engine : Engine) (fs : String → Bool)
        (now : Nat) (url : String), st.videoUrl = some url → url ≠ "" →
        cacheLookups (download_file st choice engine fs now).2
          = [deriveKey url choice])
    ∧ (∀ (st : BotState) (text : String) (ora : OracleAnswer),
        oracleCalls (handle_url st text ora).2 = 1)
    ∧ (∀ (st : BotState) (ora : OracleAnswer),
        oracleCalls (joined_channel st ora).2 = 1) := by
  refine ⟨fun st choice engine fs now => ?_,
    fun st choice engine fs now url hu hne => ?_,
    fun st text ora => ?_, fun st ora => ?_⟩
  · cases hu : st.videoUrl with
    | none => simp [download_file, hu, oracleCalls]
    | some url =>
        by_cases hne : url = ""
        · simp [download_file, hu, hne, oracleCalls]
        · cases htr : truthy (redisGet st.cache now (deriveKey url choice)) with
          | some cached =>
              cases hfs : fs cached <;> cases choice <;>
                simp [download_file, hu, hne, htr, oracleCalls,
                  send_file_from_cache, hfs]
          | none =>
              cases heng : engine url choice with
              | ok path =>
                  cases hfs : fs path <;> cases choice <;>
                    simp [download_file, hu, hne, htr, heng, oracleCalls,
                      send_file_from_cache, hfs]
              | error e =>
                  simp [download_file, hu, hne, htr, heng, oracleCalls]
  · cases htr : truthy (redisGet st.cache now (deriveKey url choice)) with
    | some cached =>
        cases hfs : fs cached <;> cases choice <;>
          simp [download_file, hu, hne, htr, cacheLookups,
            send_file_from_cache, hfs]
    | none =>
        cases heng : engine url choice with
        | ok path =>
            cases hfs : fs path <;> cases choice <;>
              simp [download_file, hu, hne, htr, heng, cacheLookups,
                send_file_from_cache, hfs]
        | error e =>
            simp [download_file, hu, hne, htr, heng, cacheLookups]
  · cases ora with
    | ok s =>
        by_cases hm : memberAllowed s
        · simp only [handle_url, hm, if_true]
          rw [oracleCalls_cons_oracle, oracleCalls_show_options]
        · simp [handle_url, hm, oracleCalls]
    | unreachable => simp [handle_url, oracleCalls]
  · cases ora with
    | ok s =>
        by_cases hm : memberAllowed s
        · simp only [joined_channel, hm, if_true]
          rw [oracleCalls_cons_oracle, oracleCalls_cons_userMsg,
            oracleCalls_show_options]
        · simp [joined_channel, hm, oracleCalls]
    | unreachable => simp [joined_channel, oracleCalls]

/-- Witness for C10 at a concrete format selection with a stored URL. -/
theorem C10_witness :
    oracleCalls (download_file ⟨some "u", fun _ => none⟩ Fmt.video
        (fun _ _ => Except.error "x") (fun _ => false) 0).2 = 0
    ∧ cacheLookups (download_file ⟨some "u", fun _ => none⟩ Fmt.video
        (fun _ _ => Except.error "x") (fun _ => false) 0).2
      = [deriveKey "u" Fmt.video] :=
  ⟨C10_format_selection_skips_gate.1 ⟨some "u", fun _ => none⟩ Fmt.video
      (fun _ _ => Except.error "x") (fun _ => false) 0,
   C10_format_selection_skips_gate.2.1 ⟨some "u", fun _ => none⟩ Fmt.video
      (fun _ _ => Except.error "x") (fun _ => false) 0 "u" rfl (by decide)⟩

end SuraCreator
